import Mathlib

set_option maxHeartbeats 1000000
set_option maxRecDepth 8000

/-!
Verification development for the sunk crate modules jukebox.rs and
playlist.rs (a Subsonic-compatible API client).

The embedding models the observable behaviour of each operation:
  * JSON values are a first-order inductive; wire numbers keep the
    distinction between integer tokens and decimal tokens (decimal
    tokens are held exactly as rationals, which models the f32 `gain`
    field exactly at the values the protocol carries, such as 0.75);
  * the serde-derive struct deserializers are modelled as field-by-field
    extraction in declaration order over the JSON object, with
    missing-field and invalid-type failures naming the wire field;
  * each Jukebox method is split into the request it issues (endpoint
    name plus query parameters, fully deterministic) and the response
    parse it applies (deJukeboxStatus / deJukeboxPlaylist);
  * the external Song entity is abstract: its decoder is a parameter of
    every definition that consumes it, mirroring the fact that
    media::song::Song implements its own Deserialize / from.
-/

/-- JSON values as delivered by the transport layer. Objects are ordered
association lists (serde_json maps with the first binding of a key
authoritative); numbers distinguish integer wire tokens from decimal
wire tokens. -/
inductive Json where
  | null : Json
  | bool (b : Bool) : Json
  | int (n : Int) : Json
  | float (q : ℚ) : Json
  | str (s : String) : Json
  | arr (xs : List Json) : Json
  | obj (fs : List (String × Json)) : Json

/-- Typed failures of the client: Error::ParseError with its static
message, serde missing-field errors naming the absent wire field, and
serde invalid-type / malformed-value errors naming the offending
field. -/
inductive Err where
  | parseError (msg : String) : Err
  | missingField (name : String) : Err
  | invalidType (name : String) : Err
deriving Repr, DecidableEq

/-- First binding of a key in a JSON object, as serde_json map lookup. -/
def jsonLookup : List (String × Json) → String → Option Json
  | [], _ => none
  | (k, v) :: rest, key => if k = key then some v else jsonLookup rest key

/-- View of a JSON value as an object. -/
def Json.getObj? : Json → Option (List (String × Json))
  | .obj fs => some fs
  | _ => none

/-- View of a JSON value as an array. -/
def Json.getArr? : Json → Option (List Json)
  | .arr xs => some xs
  | _ => none

/-- The serde_json Value::is_object test. -/
def Json.isObject (j : Json) : Bool :=
  match j with
  | .obj _ => true
  | _ => false

/-- Deserializing a Rust isize (64-bit) from a JSON value: an integer
token in the signed 64-bit range; anything else is an invalid type. -/
def asI64 : Json → Option Int
  | .int n => if -(2 ^ 63) ≤ n ∧ n < 2 ^ 63 then some n else none
  | _ => none

/-- Deserializing a Rust usize / u64 from a JSON value (also the
serde_json Value::as_u64 view): a non-negative integer token within
64 bits. -/
def asU64 : Json → Option Nat
  | .int n => if 0 ≤ n ∧ n < 2 ^ 64 then some n.toNat else none
  | _ => none

/-- Deserializing a Rust f32 from a JSON value: any numeric token is
accepted; the value is modelled exactly. -/
def asF32 : Json → Option ℚ
  | .int n => some (n : ℚ)
  | .float q => some q
  | _ => none

/-- Deserializing a Rust bool from a JSON value. -/
def asBool : Json → Option Bool
  | .bool b => some b
  | _ => none

/-- Viewing a JSON value as a string (serde_json Value::as_str and the
serde String deserializer). -/
def asStr : Json → Option String
  | .str s => some s
  | _ => none

/-- Required field of a serde-derived struct: absent fields raise the
missing-field error naming the wire field, present fields of the wrong
shape raise an invalid-type error naming the field. -/
def reqField {α : Type} (fs : List (String × Json)) (name : String)
    (ex : Json → Option α) : Except Err α :=
  match jsonLookup fs name with
  | none => .error (.missingField name)
  | some v =>
    match ex v with
    | none => .error (.invalidType name)
    | some a => .ok a

/-- The Rust question-mark operator on Result: short-circuit the error,
continue on the value. -/
def andThen {α β : Type} (x : Except Err α) (f : α → Except Err β) : Except Err β :=
  match x with
  | .error e => .error e
  | .ok a => f a

/-- Requiring a JSON value to be an object, as the serde map visitor
does before reading any field. -/
def asObject (j : Json) : Except Err (List (String × Json)) :=
  match j.getObj? with
  | none => .error (.invalidType "object")
  | some fs => .ok fs

/-- The JukeboxStatus struct of jukebox.rs: index renamed from
currentIndex, volume renamed from gain. -/
structure JukeboxStatus where
  index : Int
  playing : Bool
  volume : ℚ
  position : Nat
deriving Repr, DecidableEq

/-- The external media::song::Song entity. Only its id is observed by
the code under verification. -/
structure Song where
  id : Nat
deriving Repr, DecidableEq

/-- The JukeboxPlaylist struct of jukebox.rs. -/
structure JukeboxPlaylist where
  status : JukeboxStatus
  songs : List Song
deriving Repr, DecidableEq

/-- Decoding a JSON array elementwise into songs, left to right,
stopping at the first failing element and returning its error: the
behaviour both of the serde Vec Song deserializer and of the push loop
in get_playlist_content. -/
def decodeSongs (songDe : Json → Except Err Song) : List Json → Except Err (List Song)
  | [] => .ok []
  | x :: xs =>
    match songDe x with
    | .error e => .error e
    | .ok s =>
      match decodeSongs songDe xs with
      | .error e => .error e
      | .ok ss => .ok (s :: ss)

/-- The serde-derived deserializer of JukeboxStatus: requires the wire
fields currentIndex, playing, gain, position on a JSON object. -/
def deJukeboxStatus (j : Json) : Except Err JukeboxStatus :=
  andThen (asObject j) fun fs =>
  andThen (reqField fs "currentIndex" asI64) fun i =>
  andThen (reqField fs "playing" asBool) fun b =>
  andThen (reqField fs "gain" asF32) fun g =>
  andThen (reqField fs "position" asU64) fun p =>
  .ok ⟨i, b, g, p⟩

/-- The hand-written Deserialize of JukeboxPlaylist in jukebox.rs: a
shadow record with fields currentIndex, playing, gain, position, entry
is decoded first, then regrouped into a status plus the song list. The
Song element decoder is the external parameter songDe. -/
def deJukeboxPlaylist (songDe : Json → Except Err Song) (j : Json) :
    Except Err JukeboxPlaylist :=
  andThen (asObject j) fun fs =>
  andThen (reqField fs "currentIndex" asI64) fun i =>
  andThen (reqField fs "playing" asBool) fun b =>
  andThen (reqField fs "gain" asF32) fun g =>
  andThen (reqField fs "position" asU64) fun p =>
  andThen (reqField fs "entry" Json.getArr?) fun es =>
  andThen (decodeSongs songDe es) fun ss =>
  .ok ⟨⟨i, b, g, p⟩, ss⟩

/-- A query-string value: string, unsigned integer, or numeric gain. -/
inductive QVal where
  | str (s : String) : QVal
  | nat (n : Nat) : QVal
  | rat (q : ℚ) : QVal
deriving Repr, DecidableEq

/-- Finalized query parameters: ordered key/value pairs, a list-valued
parameter appearing as repeated pairs under its key. -/
abbrev Params := List (String × QVal)

/-- A request: remote endpoint name plus its query parameters. -/
abbrev Request := String × Params

/-- Modelled from the spec: the query module is part of the crate but
not under src/. Query::with starts a builder holding one key/value
pair. -/
def queryWith (key : String) (v : QVal) : Params := [(key, v)]

/-- Modelled from the spec: Query::arg adds the pair when the optional
value is present and adds nothing when it is absent. -/
def queryArg (ps : Params) (key : String) (v : Option Nat) : Params :=
  match v with
  | none => ps
  | some n => ps ++ [(key, QVal.nat n)]

/-- Modelled from the spec: Query::arg_list adds the repeatable list
parameter, one pair per element, preserving the order of the input
list. -/
def queryArgList (ps : Params) (key : String) (vs : List Nat) : Params :=
  ps ++ vs.map (fun n => (key, QVal.nat n))

/-- The request built by Jukebox::send_action_with: endpoint
jukeboxControl with the action, the optional index, and the id list. -/
def Jukebox.send_action_with (action : String) (index : Option Nat)
    (ids : List Nat) : Request :=
  ("jukeboxControl",
    queryArgList (queryArg (queryWith "action" (QVal.str action)) "index" index) "id" ids)

/-- Jukebox::send_action: send_action_with with no index and no ids. -/
def Jukebox.send_action (action : String) : Request :=
  Jukebox.send_action_with action none []

/-- The request issued by Jukebox::playlist. -/
def Jukebox.playlistRequest : Request :=
  ("jukeboxControl", queryWith "action" (QVal.str "get"))

/-- The request issued by Jukebox::status. -/
def Jukebox.statusRequest : Request := Jukebox.send_action "status"

/-- The request issued by Jukebox::play. -/
def Jukebox.playRequest : Request := Jukebox.send_action "start"

/-- The request issued by Jukebox::stop. -/
def Jukebox.stopRequest : Request := Jukebox.send_action "stop"

/-- The request issued by Jukebox::skip_to. -/
def Jukebox.skip_to (n : Nat) : Request :=
  Jukebox.send_action_with "skip" (some n) []

/-- The request issued by Jukebox::add: the id of the song, cast to
usize, as a one-element id list. -/
def Jukebox.add (song : Song) : Request :=
  Jukebox.send_action_with "add" none [song.id]

/-- The request issued by Jukebox::add_id. -/
def Jukebox.add_id (id : Nat) : Request :=
  Jukebox.send_action_with "add" none [id]

/-- The request issued by Jukebox::add_all: the ids of the songs, in
order. -/
def Jukebox.add_all (songs : List Song) : Request :=
  Jukebox.send_action_with "add" none (songs.map (fun s => s.id))

/-- The request issued by Jukebox::add_all_ids. -/
def Jukebox.add_all_ids (ids : List Nat) : Request :=
  Jukebox.send_action_with "add" none ids

/-- The request issued by Jukebox::clear. -/
def Jukebox.clearRequest : Request := Jukebox.send_action "clear"

/-- The request issued by Jukebox::remove: the id of the song, cast to
usize, passed as the index argument. -/
def Jukebox.remove (song : Song) : Request :=
  Jukebox.send_action_with "remove" (some song.id) []

/-- The request issued by Jukebox::remove_id: the id passed as the
index argument. -/
def Jukebox.remove_id (id : Nat) : Request :=
  Jukebox.send_action_with "remove" (some id) []

/-- The request issued by Jukebox::shuffle. -/
def Jukebox.shuffleRequest : Request := Jukebox.send_action "shuffle"

/-- The request issued by Jukebox::set_volume: action setGain with the
gain value. -/
def Jukebox.set_volume (volume : ℚ) : Request :=
  ("jukeboxControl", queryWith "action" (QVal.str "setGain") ++ [("gain", QVal.rat volume)])

/-- The Playlist struct of playlist.rs: id parsed from a wire string,
cover renamed from coverArt, song_count renamed from songCount. -/
structure Playlist where
  id : Nat
  name : String
  song_count : Nat
  duration : Nat
  cover : String
deriving Repr, DecidableEq

/-- Value of an all-digit character list, most significant first; none
when the list is empty or holds a non-digit. -/
def digitsVal (acc : Nat) : List Char → Option Nat
  | [] => some acc
  | c :: cs => if c.isDigit then digitsVal (acc * 10 + (c.toNat - 48)) cs else none

/-- The Rust str::parse::<u64>() function: an optional leading plus
sign, then one or more decimal digits, the value fitting in 64 bits;
everything else fails. -/
def rustParseU64 (s : String) : Option Nat :=
  match s.data with
  | [] => none
  | '+' :: [] => none
  | '+' :: c :: cs =>
    match digitsVal 0 (c :: cs) with
    | none => none
    | some n => if n < 2 ^ 64 then some n else none
  | c :: cs =>
    match digitsVal 0 (c :: cs) with
    | none => none
    | some n => if n < 2 ^ 64 then some n else none

/-- Modelled from the spec: the fetch! macro lives in the macros module
of the crate, which is not under src/. Per the parse contract, a
required field is looked up on the object, failing with a parse error
naming the field when it is absent, and viewed through the given
serde_json accessor, failing with an error naming the field when the
view does not apply. -/
def fetchField {α : Type} (fs : List (String × Json)) (name : String)
    (ex : Json → Option α) : Except Err α :=
  match jsonLookup fs name with
  | none => .error (.missingField name)
  | some v =>
    match ex v with
    | none => .error (.invalidType name)
    | some a => .ok a

/-- Modelled from the spec: the numeric-target variant of fetch! parses
the string field value as a u64 and fails the whole parse, naming the
field, when the string is non-numeric. -/
def parsedU64 (name : String) (s : String) : Except Err Nat :=
  match rustParseU64 s with
  | none => .error (.invalidType name)
  | some n => .ok n

/-- Playlist::from of playlist.rs: rejects non-objects with
ParseError, then fetches id (a string parsed as u64), name, songCount,
duration and coverArt; the string-to-u64 step follows the fetch!
variant with a numeric target type and fails on a non-numeric string. -/
def Playlist.fromJson (j : Json) : Except Err Playlist :=
  match j.getObj? with
  | none => .error (.parseError "not an object")
  | some fs =>
    andThen (fetchField fs "id" asStr) fun idStr =>
    andThen (parsedU64 "id" idStr) fun idv =>
    andThen (fetchField fs "name" asStr) fun nm =>
    andThen (fetchField fs "songCount" asU64) fun sc =>
    andThen (fetchField fs "duration" asU64) fun du =>
    andThen (fetchField fs "coverArt" asStr) fun cov =>
    .ok ⟨idv, nm, sc, du, cov⟩

/-- The opaque transport handle (Sunk): no structure of it is observed
by the code under verification. -/
inductive Sunk where
  | mk : Sunk

/-- Outcome of calling a Rust function that may panic instead of
returning. -/
inductive Panics (α : Type) where
  | panics (msg : String) : Panics α
  | returns (a : α) : Panics α

/-- The free function get_playlists of playlist.rs: its body is the
unimplemented macro, so every invocation panics. -/
def get_playlists (_sunk : Sunk) (_user : Option String) : Panics (List Playlist) :=
  .panics "not implemented"

/-- The free function get_playlist of playlist.rs: its body is the
unimplemented macro, so every invocation panics. -/
def get_playlist (_sunk : Sunk) (_id : Nat) : Panics (Except Err Playlist) :=
  .panics "not implemented"

/-- Leftmost-first replacement of the two-character pattern a b by the
single character r, as str::replace does for a two-character pattern. -/
def replacePair (a b r : Char) : List Char → List Char
  | [] => []
  | [c] => [c]
  | c :: d :: rest =>
    if c = a ∧ d = b then r :: replacePair a b r rest
    else c :: replacePair a b r (d :: rest)

/-- Unescaping of one JSON-pointer token, as serde_json: tilde-1
becomes a slash, then tilde-0 becomes a tilde. -/
def unescapeToken (t : List Char) : List Char :=
  replacePair '~' '0' '~' (replacePair '~' '1' '/' t)

/-- Splitting a character list on a separator, as str::split. -/
def splitOnChar (sep : Char) : List Char → List (List Char)
  | [] => [[]]
  | c :: rest =>
    match splitOnChar sep rest with
    | [] => [[c]]
    | t :: ts => if c = sep then [] :: t :: ts else (c :: t) :: ts

/-- Array-index reading of a JSON-pointer token, as serde_json
parse_index: no leading plus sign, no leading zero unless the token is
the single character zero, then a usize decimal parse. -/
def parseIndex : List Char → Option Nat
  | [] => none
  | '+' :: _ => none
  | ['0'] => some 0
  | '0' :: _ :: _ => none
  | c :: cs =>
    match digitsVal 0 (c :: cs) with
    | none => none
    | some n => if n < 2 ^ 64 then some n else none

/-- Descent of a JSON pointer through a value: objects by key, arrays
by index, anything else fails. -/
def Json.pointerAux : Json → List (List Char) → Option Json
  | v, [] => some v
  | .obj fs, t :: ts =>
    match jsonLookup fs (String.mk t) with
    | some v => Json.pointerAux v ts
    | none => none
  | .arr xs, t :: ts =>
    match parseIndex t with
    | some i =>
      match xs[i]? with
      | some v => Json.pointerAux v ts
      | none => none
    | none => none
  | _, _ :: _ => none

/-- The serde_json Value::pointer method: the empty pointer is the
whole document, a pointer not starting with a slash resolves to
nothing, otherwise the slash-separated tokens after the leading slash
are unescaped and followed. -/
def Json.pointer (j : Json) (p : String) : Option Json :=
  match p.data with
  | [] => some j
  | '/' :: rest =>
    Json.pointerAux j ((splitOnChar '/' rest).map unescapeToken)
  | _ => none

/-- The request issued by get_playlist_content: endpoint getPlaylist
with the playlist id. -/
def getPlaylistContentRequest (id : Nat) : Request :=
  ("getPlaylist", [("id", QVal.nat id)])

/-- The Option::ok_or adapter of the Rust standard library, as used
with the question-mark operator. -/
def okOr {α : Type} (x : Option α) (e : Err) : Except Err α :=
  match x with
  | none => .error e
  | some a => .ok a

/-- The response handling of get_playlist_content: the pointer path
subsonic-response / playlist / entry must resolve (else ParseError
"no entries found") to an array (else ParseError "not an array"),
whose elements are decoded as songs in order, failing on the first bad
element. The Song decoder is the external parameter songFrom. -/
def get_playlist_content (songFrom : Json → Except Err Song) (res : Json) :
    Except Err (List Song) :=
  andThen (okOr (res.pointer "/subsonic-response/playlist/entry")
      (.parseError "no entries found")) fun v =>
  andThen (okOr v.getArr? (.parseError "not an array")) fun es =>
  decodeSongs songFrom es

/-- The request issued by Playlist::songs: get_playlist_content on the
id of the playlist. -/
def Playlist.songsRequest (p : Playlist) : Request :=
  getPlaylistContentRequest p.id

/-- A song decoder that accepts anything, used to instantiate the
external Song parameter at concrete inputs. -/
def constSongDe : Json → Except Err Song := fun _ => Except.ok ⟨7⟩

/-- A song decoder that accepts only the null value, used to exhibit
fail-fast behaviour at concrete inputs. -/
def pickySongDe : Json → Except Err Song := fun j =>
  match j with
  | Json.null => Except.ok ⟨7⟩
  | _ => Except.error (Err.parseError "bad song")

/-- Elementwise decoding that succeeds returns one song per input
element. -/
theorem decodeSongs_ok_length (f : Json → Except Err Song) :
    ∀ (xs : List Json) (ss : List Song),
      decodeSongs f xs = Except.ok ss → ss.length = xs.length := by
  intro xs
  induction xs with
  | nil =>
    intro ss h
    simp only [decodeSongs] at h
    cases h
    rfl
  | cons x xs ih =>
    intro ss h
    simp only [decodeSongs] at h
    cases hf : f x with
    | error e => rw [hf] at h; cases h
    | ok s =>
      rw [hf] at h
      cases hd : decodeSongs f xs with
      | error e => rw [hd] at h; cases h
      | ok ss2 =>
        rw [hd] at h
        cases h
        simp [ih ss2 hd]

/-- Elementwise decoding that succeeds decodes the element at every
position to the song at the same position. -/
theorem decodeSongs_get (f : Json → Except Err Song) :
    ∀ (xs : List Json) (ss : List Song),
      decodeSongs f xs = Except.ok ss →
      ∀ k : Nat, (xs[k]?).map f = (ss[k]?).map Except.ok := by
  intro xs
  induction xs with
  | nil =>
    intro ss h k
    simp only [decodeSongs] at h
    cases h
    rfl
  | cons x xs ih =>
    intro ss h k
    simp only [decodeSongs] at h
    cases hf : f x with
    | error e => rw [hf] at h; cases h
    | ok s =>
      rw [hf] at h
      cases hd : decodeSongs f xs with
      | error e => rw [hd] at h; cases h
      | ok ss2 =>
        rw [hd] at h
        cases h
        cases k with
        | zero => simp [hf]
        | succ k => simpa using ih ss2 hd k

/-- Elementwise decoding stops at the first failing element and
returns its error, whatever follows it. -/
theorem decodeSongs_first_error (f : Json → Except Err Song) :
    ∀ (xs : List Json) (ss : List Song) (x : Json) (e : Err) (ys : List Json),
      decodeSongs f xs = Except.ok ss → f x = Except.error e →
      decodeSongs f (xs ++ x :: ys) = Except.error e := by
  intro xs
  induction xs with
  | nil =>
    intro ss x e ys _ hx
    simp [decodeSongs, hx]
  | cons z xs ih =>
    intro ss x e ys h hx
    simp only [decodeSongs] at h
    cases hf : f z with
    | error e2 => rw [hf] at h; cases h
    | ok s =>
      rw [hf] at h
      cases hd : decodeSongs f xs with
      | error e2 => rw [hd] at h; cases h
      | ok ss2 =>
        rw [hd] at h
        cases h
        simp [decodeSongs, hf, ih ss2 x e ys hd hx]

/-- Reading an in-range integer token as an isize succeeds with the
integer itself. -/
theorem asI64_int {n : Int} (h1 : -(2 ^ 63) ≤ n) (h2 : n < 2 ^ 63) :
    asI64 (Json.int n) = some n := by
  show (if -(2 ^ 63) ≤ n ∧ n < 2 ^ 63 then some n else none) = some n
  rw [if_pos ⟨h1, h2⟩]

/-- Reading an in-range non-negative integer token as a usize succeeds
with the natural number itself. -/
theorem asU64_int {p : Nat} (hp : p < 2 ^ 64) :
    asU64 (Json.int (p : Int)) = some p := by
  have h2 : ((p : Int)) < 2 ^ 64 := by exact_mod_cast hp
  simp only [asU64]
  rw [if_pos ⟨Int.natCast_nonneg p, h2⟩, Int.toNat_natCast]

/-- Short-circuit combinator applied to a value. -/
theorem andThen_ok {α β : Type} (a : α) (f : α → Except Err β) :
    andThen (Except.ok a) f = f a := rfl

/-- Short-circuit combinator applied to an error. -/
theorem andThen_error {α β : Type} (e : Err) (f : α → Except Err β) :
    andThen (Except.error e) f = Except.error e := rfl

/-- Requiring an object of a literal object value. -/
theorem asObject_obj (fs : List (String × Json)) :
    asObject (Json.obj fs) = Except.ok fs := rfl

/-- Reading a boolean token as a bool. -/
theorem asBool_bool (b : Bool) : asBool (Json.bool b) = some b := rfl

/-- Reading a decimal token as an f32. -/
theorem asF32_float (q : ℚ) : asF32 (Json.float q) = some q := rfl

/-- Viewing an array value as an array. -/
theorem getArr_arr (xs : List Json) : (Json.arr xs).getArr? = some xs := rfl

/-- Viewing a string value as a string. -/
theorem asStr_str (s : String) : asStr (Json.str s) = some s := rfl

/-- A required field that is present and well shaped yields its
value. -/
theorem reqField_some {α : Type} {fs : List (String × Json)} {name : String}
    {ex : Json → Option α} {v : Json} {a : α}
    (hl : jsonLookup fs name = some v) (he : ex v = some a) :
    reqField fs name ex = Except.ok a := by
  simp only [reqField, hl, he]

/-- A required field that is absent yields the missing-field error
naming it. -/
theorem reqField_none {α : Type} {fs : List (String × Json)} {name : String}
    {ex : Json → Option α} (hl : jsonLookup fs name = none) :
    reqField fs name ex = Except.error (Err.missingField name) := by
  simp only [reqField, hl]

/-- A required field that is present with the wrong shape yields the
invalid-type error naming it. -/
theorem reqField_badtype {α : Type} {fs : List (String × Json)} {name : String}
    {ex : Json → Option α} {v : Json}
    (hl : jsonLookup fs name = some v) (he : ex v = none) :
    reqField fs name ex = Except.error (Err.invalidType name) := by
  simp only [reqField, hl, he]

/-- A fetched field that is present and well shaped yields its
value. -/
theorem fetchField_some {α : Type} {fs : List (String × Json)} {name : String}
    {ex : Json → Option α} {v : Json} {a : α}
    (hl : jsonLookup fs name = some v) (he : ex v = some a) :
    fetchField fs name ex = Except.ok a := by
  simp only [fetchField, hl, he]

/-- A fetched field that is absent yields the missing-field error
naming it. -/
theorem fetchField_none {α : Type} {fs : List (String × Json)} {name : String}
    {ex : Json → Option α} (hl : jsonLookup fs name = none) :
    fetchField fs name ex = Except.error (Err.missingField name) := by
  simp only [fetchField, hl]

/-- A fetched field that is present with the wrong shape yields the
invalid-type error naming it. -/
theorem fetchField_badtype {α : Type} {fs : List (String × Json)} {name : String}
    {ex : Json → Option α} {v : Json}
    (hl : jsonLookup fs name = some v) (he : ex v = none) :
    fetchField fs name ex = Except.error (Err.invalidType name) := by
  simp only [fetchField, hl, he]

/-- Adapting a present optional value. -/
theorem okOr_some {α : Type} {x : Option α} {a : α} (h : x = some a) (e : Err) :
    okOr x e = Except.ok a := by
  simp only [okOr, h]

/-- Adapting an absent optional value. -/
theorem okOr_none {α : Type} {x : Option α} (h : x = none) (e : Err) :
    okOr x e = Except.error e := by
  simp only [okOr, h]

/-- Viewing a literal object value as an object. -/
theorem getObj_obj (fs : List (String × Json)) :
    (Json.obj fs).getObj? = some fs := rfl

/-- A numeric string field value parses to its number. -/
theorem parsedU64_some {s : String} {n : Nat} (name : String)
    (h : rustParseU64 s = some n) : parsedU64 name s = Except.ok n := by
  simp only [parsedU64, h]

/-- A non-numeric string field value fails the parse, naming the
field. -/
theorem parsedU64_none {s : String} (name : String)
    (h : rustParseU64 s = none) :
    parsedU64 name s = Except.error (Err.invalidType name) := by
  simp only [parsedU64, h]

/-- The Playlist parse on a literal object value is the field chain. -/
theorem fromJson_obj (fs : List (String × Json)) :
    Playlist.fromJson (Json.obj fs) =
      (andThen (fetchField fs "id" asStr) fun idStr =>
       andThen (parsedU64 "id" idStr) fun idv =>
       andThen (fetchField fs "name" asStr) fun nm =>
       andThen (fetchField fs "songCount" asU64) fun sc =>
       andThen (fetchField fs "duration" asU64) fun du =>
       andThen (fetchField fs "coverArt" asStr) fun cov =>
       Except.ok ⟨idv, nm, sc, du, cov⟩) := rfl

/-- The Playlist parse rejects every non-object input with the
ParseError of playlist.rs. -/
theorem fromJson_not_object {j : Json} (h : j.getObj? = none) :
    Playlist.fromJson j = Except.error (Err.parseError "not an object") := by
  cases j with
  | obj fs => rw [getObj_obj] at h; cases h
  | null => rfl
  | bool b => rfl
  | int n => rfl
  | float q => rfl
  | str s => rfl
  | arr xs => rfl

/-- Claim C1: for every JSON object with fields currentIndex, playing,
gain, position and an entry array of N song objects (for all N,
including zero), the JukeboxPlaylist parse succeeds and yields songs
of length N in the input order, with status index, playing, volume and
position equal to the flat input fields currentIndex, playing, gain
and position respectively; an empty entry array yields an empty song
sequence, not an error. -/
theorem c1_jukebox_playlist_parse (songDe : Json → Except Err Song)
    (i : Int) (b : Bool) (g : ℚ) (p : Nat) (es : List Json) (ss : List Song)
    (hi1 : -(2 ^ 63) ≤ i) (hi2 : i < 2 ^ 63) (hp : p < 2 ^ 64)
    (hs : decodeSongs songDe es = Except.ok ss) :
    deJukeboxPlaylist songDe (Json.obj
      [("currentIndex", Json.int i), ("playing", Json.bool b),
       ("gain", Json.float g), ("position", Json.int (p : Int)),
       ("entry", Json.arr es)]) =
      Except.ok ⟨⟨i, b, g, p⟩, ss⟩ ∧
    ss.length = es.length ∧
    ∀ k : Nat, (es[k]?).map songDe = (ss[k]?).map Except.ok := by
  refine ⟨?_, decodeSongs_ok_length songDe es ss hs, decodeSongs_get songDe es ss hs⟩
  set fs : List (String × Json) := [("currentIndex", Json.int i), ("playing", Json.bool b),
      ("gain", Json.float g), ("position", Json.int (p : Int)),
      ("entry", Json.arr es)] with hfs
  have l1 : jsonLookup fs "currentIndex" = some (Json.int i) := rfl
  have l2 : jsonLookup fs "playing" = some (Json.bool b) := rfl
  have l3 : jsonLookup fs "gain" = some (Json.float g) := rfl
  have l4 : jsonLookup fs "position" = some (Json.int (p : Int)) := rfl
  have l5 : jsonLookup fs "entry" = some (Json.arr es) := rfl
  have e1 : reqField fs "currentIndex" asI64 = Except.ok i :=
    reqField_some l1 (asI64_int hi1 hi2)
  have e2 : reqField fs "playing" asBool = Except.ok b :=
    reqField_some l2 (asBool_bool b)
  have e3 : reqField fs "gain" asF32 = Except.ok g :=
    reqField_some l3 (asF32_float g)
  have e4 : reqField fs "position" asU64 = Except.ok p :=
    reqField_some l4 (asU64_int hp)
  have e5 : reqField fs "entry" Json.getArr? = Except.ok es :=
    reqField_some l5 (getArr_arr es)
  show deJukeboxPlaylist songDe (Json.obj fs) = _
  rw [deJukeboxPlaylist, asObject_obj, andThen_ok, e1, andThen_ok, e2, andThen_ok,
    e3, andThen_ok, e4, andThen_ok, e5, andThen_ok, hs, andThen_ok]

/-- Witness for claim C1 at a concrete input: two entry elements, a
constant song decoder, index zero, gain three quarters. -/
theorem c1_jukebox_playlist_parse_witness :
    deJukeboxPlaylist constSongDe (Json.obj
      [("currentIndex", Json.int 0), ("playing", Json.bool false),
       ("gain", Json.float (3 / 4)), ("position", Json.int ((0 : Nat) : Int)),
       ("entry", Json.arr [Json.null, Json.null])]) =
      Except.ok ⟨⟨0, false, 3 / 4, 0⟩, [⟨7⟩, ⟨7⟩]⟩ ∧
    ([⟨7⟩, ⟨7⟩] : List Song).length = ([Json.null, Json.null] : List Json).length ∧
    ∀ k : Nat, (([Json.null, Json.null] : List Json)[k]?).map constSongDe =
      (([⟨7⟩, ⟨7⟩] : List Song)[k]?).map Except.ok :=
  c1_jukebox_playlist_parse constSongDe 0 false (3 / 4) 0
    [Json.null, Json.null] [⟨7⟩, ⟨7⟩] (by decide) (by decide) (by decide) rfl

/-- Claim C2: for every n, remove_id and skip_to serialize the extra
query parameter under the key index, not under the key id, in the
request sent to the jukeboxControl endpoint. -/
theorem c2_index_parameter_key (n : Nat) :
    Jukebox.remove_id n =
      ("jukeboxControl", [("action", QVal.str "remove"), ("index", QVal.nat n)]) ∧
    Jukebox.skip_to n =
      ("jukeboxControl", [("action", QVal.str "skip"), ("index", QVal.nat n)]) ∧
    (∀ v : QVal, ("id", v) ∉ (Jukebox.remove_id n).2) ∧
    (∀ v : QVal, ("id", v) ∉ (Jukebox.skip_to n).2) := by
  refine ⟨rfl, rfl, ?_, ?_⟩ <;> intro v <;>
    simp [Jukebox.remove_id, Jukebox.skip_to, Jukebox.send_action_with,
      queryArgList, queryArg, queryWith]

/-- Extracting the id-keyed values out of the repeated id parameters
recovers the id list itself. -/
theorem filterMap_id_params (ids : List Nat) :
    ids.filterMap ((fun pr : String × QVal => if pr.1 = "id" then some pr.2 else none) ∘
      (fun i => ("id", QVal.nat i))) = ids.map QVal.nat := by
  induction ids with
  | nil => rfl
  | cons i ids ih => simp [List.filterMap_cons, Function.comp, ih]

/-- Claim C3: for every list of ids, add_all_ids sends the id list
parameter equal to the input list in the same order, with no
reordering and no deduplication. -/
theorem c3_add_all_ids_order (ids : List Nat) :
    Jukebox.add_all_ids ids =
      ("jukeboxControl",
        ("action", QVal.str "add") :: ids.map (fun i => ("id", QVal.nat i))) ∧
    (Jukebox.add_all_ids ids).2.filterMap
      (fun pr => if pr.1 = "id" then some pr.2 else none) = ids.map QVal.nat := by
  constructor
  · rfl
  · show (("action", QVal.str "add") :: ids.map (fun i => ("id", QVal.nat i))).filterMap
      (fun pr => if pr.1 = "id" then some pr.2 else none) = ids.map QVal.nat
    simp [List.filterMap_cons, filterMap_id_params]

/-- Claim C4: the Playlist parse maps the wire fields to the typed
structure, parsing the string id field to an unsigned integer: on the
input with id "1", songCount 32, duration 8334, coverArt "pl-2" and a
string name, the parse succeeds with id 1, song_count 32, duration
8334, cover "pl-2", and name equal to the input name string; the
unrecognized fields owner, public, created and changed are ignored. -/
theorem c4_playlist_parse (name : String) :
    Playlist.fromJson (Json.obj
      [("id", Json.str "1"), ("name", Json.str name), ("owner", Json.str "user"),
       ("public", Json.bool false), ("songCount", Json.int 32),
       ("duration", Json.int 8334),
       ("created", Json.str "2018-01-01T14:45:07.464Z"),
       ("changed", Json.str "2018-01-01T14:45:07.478Z"),
       ("coverArt", Json.str "pl-2")]) =
      Except.ok ⟨1, name, 32, 8334, "pl-2"⟩ := rfl

/-- The object view is empty exactly when the is_object test fails. -/
theorem getObj_none_iff (j : Json) : j.getObj? = none ↔ j.isObject = false := by
  cases j with
  | null => exact ⟨fun _ => rfl, fun _ => rfl⟩
  | bool b => exact ⟨fun _ => rfl, fun _ => rfl⟩
  | int n => exact ⟨fun _ => rfl, fun _ => rfl⟩
  | float q => exact ⟨fun _ => rfl, fun _ => rfl⟩
  | str s => exact ⟨fun _ => rfl, fun _ => rfl⟩
  | arr xs => exact ⟨fun _ => rfl, fun _ => rfl⟩
  | obj fs => exact ⟨fun h => Option.noConfusion h, fun h => Bool.noConfusion h⟩

/-- Claim C5: the Playlist parse returns a typed parse error whenever
the input value is not an object, and whenever the id field is a
string that is not parseable as an unsigned integer; in either case no
Playlist is produced. -/
theorem c5_playlist_parse_errors :
    (∀ j : Json, j.isObject = false →
      Playlist.fromJson j = Except.error (Err.parseError "not an object")) ∧
    (∀ (fs : List (String × Json)) (s : String),
      jsonLookup fs "id" = some (Json.str s) → rustParseU64 s = none →
      Playlist.fromJson (Json.obj fs) = Except.error (Err.invalidType "id")) := by
  constructor
  · intro j h
    exact fromJson_not_object ((getObj_none_iff j).mpr h)
  · intro fs s hl hp
    rw [fromJson_obj, fetchField_some hl (asStr_str s), andThen_ok,
      parsedU64_none "id" hp, andThen_error]

/-- Witness for claim C5: a non-object input and an object whose id is
a non-numeric string. -/
theorem c5_playlist_parse_errors_witness :
    Playlist.fromJson Json.null = Except.error (Err.parseError "not an object") ∧
    Playlist.fromJson (Json.obj [("id", Json.str "x")]) =
      Except.error (Err.invalidType "id") :=
  ⟨c5_playlist_parse_errors.1 Json.null rfl,
   c5_playlist_parse_errors.2 [("id", Json.str "x")] "x" rfl rfl⟩

/-- Claim C6: Playlist::songs via get_playlist_content issues a GET to
the getPlaylist endpoint with the id parameter set to the id of the
playlist, reads the nested JSON path subsonic-response / playlist /
entry, fails with a parse error if that path is absent or its value is
not an array, otherwise decodes each array element as a Song in order,
stops at the first element that fails to decode and returns that
failure with no partial list, and on success returns the songs in the
order of the array. -/
theorem c6_get_playlist_content :
    (∀ pl : Playlist,
      pl.songsRequest = ("getPlaylist", [("id", QVal.nat pl.id)])) ∧
    (∀ (sf : Json → Except Err Song) (res : Json),
      res.pointer "/subsonic-response/playlist/entry" = none →
      get_playlist_content sf res = Except.error (Err.parseError "no entries found")) ∧
    (∀ (sf : Json → Except Err Song) (res v : Json),
      res.pointer "/subsonic-response/playlist/entry" = some v → v.getArr? = none →
      get_playlist_content sf res = Except.error (Err.parseError "not an array")) ∧
    (∀ (sf : Json → Except Err Song) (res : Json) (es : List Json) (ss : List Song),
      res.pointer "/subsonic-response/playlist/entry" = some (Json.arr es) →
      decodeSongs sf es = Except.ok ss →
      get_playlist_content sf res = Except.ok ss ∧ ss.length = es.length ∧
        ∀ k : Nat, (es[k]?).map sf = (ss[k]?).map Except.ok) ∧
    (∀ (sf : Json → Except Err Song) (res : Json) (es1 : List Json) (x : Json)
      (es2 : List Json) (ss1 : List Song) (e : Err),
      res.pointer "/subsonic-response/playlist/entry" = some (Json.arr (es1 ++ x :: es2)) →
      decodeSongs sf es1 = Except.ok ss1 → sf x = Except.error e →
      get_playlist_content sf res = Except.error e) := by
  refine ⟨fun pl => rfl, ?_, ?_, ?_, ?_⟩
  · intro sf res h
    rw [get_playlist_content, okOr_none h, andThen_error]
  · intro sf res v h1 h2
    rw [get_playlist_content, okOr_some h1, andThen_ok, okOr_none h2, andThen_error]
  · intro sf res es ss h1 h2
    refine ⟨?_, decodeSongs_ok_length sf es ss h2, decodeSongs_get sf es ss h2⟩
    rw [get_playlist_content, okOr_some h1, andThen_ok, okOr_some (getArr_arr es) _,
      andThen_ok, h2]
  · intro sf res es1 x es2 ss1 e h1 h2 h3
    rw [get_playlist_content, okOr_some h1, andThen_ok,
      okOr_some (getArr_arr (es1 ++ x :: es2)) _, andThen_ok,
      decodeSongs_first_error sf es1 ss1 x e es2 h2 h3]

/-- Witness for claim C6 at concrete inputs: a response with one good
entry, a response without the nested path, a response whose entry is
not an array, and a response whose second entry fails to decode. -/
theorem c6_get_playlist_content_witness :
    (⟨5, "n", 0, 0, "c"⟩ : Playlist).songsRequest
      = ("getPlaylist", [("id", QVal.nat 5)]) ∧
    get_playlist_content pickySongDe Json.null
      = Except.error (Err.parseError "no entries found") ∧
    get_playlist_content pickySongDe (Json.obj [("subsonic-response", Json.obj
        [("playlist", Json.obj [("entry", Json.int 3)])])])
      = Except.error (Err.parseError "not an array") ∧
    (get_playlist_content pickySongDe (Json.obj [("subsonic-response", Json.obj
        [("playlist", Json.obj [("entry", Json.arr [Json.null])])])])
      = Except.ok [⟨7⟩] ∧
      ([⟨7⟩] : List Song).length = ([Json.null] : List Json).length ∧
      ∀ k : Nat, (([Json.null] : List Json)[k]?).map pickySongDe =
        (([⟨7⟩] : List Song)[k]?).map Except.ok) ∧
    get_playlist_content pickySongDe (Json.obj [("subsonic-response", Json.obj
        [("playlist", Json.obj [("entry", Json.arr [Json.null, Json.int 1, Json.null])])])])
      = Except.error (Err.parseError "bad song") :=
  ⟨c6_get_playlist_content.1 ⟨5, "n", 0, 0, "c"⟩,
   c6_get_playlist_content.2.1 pickySongDe Json.null rfl,
   c6_get_playlist_content.2.2.1 pickySongDe _ (Json.int 3) rfl rfl,
   c6_get_playlist_content.2.2.2.1 pickySongDe _ [Json.null] [⟨7⟩] rfl rfl,
   c6_get_playlist_content.2.2.2.2 pickySongDe _ [Json.null] (Json.int 1) [Json.null]
     [⟨7⟩] (Err.parseError "bad song") rfl rfl rfl⟩

/-- Claim C7: for every JukeboxStatus, JukeboxPlaylist or Playlist
input object that is missing one of its required fields (currentIndex,
playing, gain, position; additionally entry for JukeboxPlaylist; id,
name, songCount, duration, coverArt for Playlist) while the fields
read before it are present and well shaped, the parse fails with an
error naming the absence of that field, never succeeding with a
defaulted value. -/
theorem c7_missing_field_errors :
    (∀ fs, jsonLookup fs "currentIndex" = none →
      deJukeboxStatus (Json.obj fs) = Except.error (Err.missingField "currentIndex")) ∧
    (∀ fs v1 i, jsonLookup fs "currentIndex" = some v1 → asI64 v1 = some i →
      jsonLookup fs "playing" = none →
      deJukeboxStatus (Json.obj fs) = Except.error (Err.missingField "playing")) ∧
    (∀ fs v1 i v2 b, jsonLookup fs "currentIndex" = some v1 → asI64 v1 = some i →
      jsonLookup fs "playing" = some v2 → asBool v2 = some b →
      jsonLookup fs "gain" = none →
      deJukeboxStatus (Json.obj fs) = Except.error (Err.missingField "gain")) ∧
    (∀ fs v1 i v2 b v3 g, jsonLookup fs "currentIndex" = some v1 → asI64 v1 = some i →
      jsonLookup fs "playing" = some v2 → asBool v2 = some b →
      jsonLookup fs "gain" = some v3 → asF32 v3 = some g →
      jsonLookup fs "position" = none →
      deJukeboxStatus (Json.obj fs) = Except.error (Err.missingField "position")) ∧
    (∀ sd fs, jsonLookup fs "currentIndex" = none →
      deJukeboxPlaylist sd (Json.obj fs) = Except.error (Err.missingField "currentIndex")) ∧
    (∀ sd fs v1 i, jsonLookup fs "currentIndex" = some v1 → asI64 v1 = some i →
      jsonLookup fs "playing" = none →
      deJukeboxPlaylist sd (Json.obj fs) = Except.error (Err.missingField "playing")) ∧
    (∀ sd fs v1 i v2 b, jsonLookup fs "currentIndex" = some v1 → asI64 v1 = some i →
      jsonLookup fs "playing" = some v2 → asBool v2 = some b →
      jsonLookup fs "gain" = none →
      deJukeboxPlaylist sd (Json.obj fs) = Except.error (Err.missingField "gain")) ∧
    (∀ sd fs v1 i v2 b v3 g, jsonLookup fs "currentIndex" = some v1 → asI64 v1 = some i →
      jsonLookup fs "playing" = some v2 → asBool v2 = some b →
      jsonLookup fs "gain" = some v3 → asF32 v3 = some g →
      jsonLookup fs "position" = none →
      deJukeboxPlaylist sd (Json.obj fs) = Except.error (Err.missingField "position")) ∧
    (∀ sd fs v1 i v2 b v3 g v4 p, jsonLookup fs "currentIndex" = some v1 →
      asI64 v1 = some i →
      jsonLookup fs "playing" = some v2 → asBool v2 = some b →
      jsonLookup fs "gain" = some v3 → asF32 v3 = some g →
      jsonLookup fs "position" = some v4 → asU64 v4 = some p →
      jsonLookup fs "entry" = none →
      deJukeboxPlaylist sd (Json.obj fs) = Except.error (Err.missingField "entry")) ∧
    (∀ fs, jsonLookup fs "id" = none →
      Playlist.fromJson (Json.obj fs) = Except.error (Err.missingField "id")) ∧
    (∀ fs s n, jsonLookup fs "id" = some (Json.str s) → rustParseU64 s = some n →
      jsonLookup fs "name" = none →
      Playlist.fromJson (Json.obj fs) = Except.error (Err.missingField "name")) ∧
    (∀ fs s n nm, jsonLookup fs "id" = some (Json.str s) → rustParseU64 s = some n →
      jsonLookup fs "name" = some (Json.str nm) →
      jsonLookup fs "songCount" = none →
      Playlist.fromJson (Json.obj fs) = Except.error (Err.missingField "songCount")) ∧
    (∀ fs s n nm v4 sc, jsonLookup fs "id" = some (Json.str s) → rustParseU64 s = some n →
      jsonLookup fs "name" = some (Json.str nm) →
      jsonLookup fs "songCount" = some v4 → asU64 v4 = some sc →
      jsonLookup fs "duration" = none →
      Playlist.fromJson (Json.obj fs) = Except.error (Err.missingField "duration")) ∧
    (∀ fs s n nm v4 sc v5 du, jsonLookup fs "id" = some (Json.str s) →
      rustParseU64 s = some n →
      jsonLookup fs "name" = some (Json.str nm) →
      jsonLookup fs "songCount" = some v4 → asU64 v4 = some sc →
      jsonLookup fs "duration" = some v5 → asU64 v5 = some du →
      jsonLookup fs "coverArt" = none →
      Playlist.fromJson (Json.obj fs) = Except.error (Err.missingField "coverArt")) := by
  refine ⟨?_, ?_, ?_, ?_, ?_, ?_, ?_, ?_, ?_, ?_, ?_, ?_, ?_, ?_⟩
  · intro fs h
    rw [deJukeboxStatus, asObject_obj, andThen_ok, reqField_none h, andThen_error]
  · intro fs v1 i h1 h1x h
    rw [deJukeboxStatus, asObject_obj, andThen_ok, reqField_some h1 h1x, andThen_ok,
      reqField_none h, andThen_error]
  · intro fs v1 i v2 b h1 h1x h2 h2x h
    rw [deJukeboxStatus, asObject_obj, andThen_ok, reqField_some h1 h1x, andThen_ok,
      reqField_some h2 h2x, andThen_ok, reqField_none h, andThen_error]
  · intro fs v1 i v2 b v3 g h1 h1x h2 h2x h3 h3x h
    rw [deJukeboxStatus, asObject_obj, andThen_ok, reqField_some h1 h1x, andThen_ok,
      reqField_some h2 h2x, andThen_ok, reqField_some h3 h3x, andThen_ok,
      reqField_none h, andThen_error]
  · intro sd fs h
    rw [deJukeboxPlaylist, asObject_obj, andThen_ok, reqField_none h, andThen_error]
  · intro sd fs v1 i h1 h1x h
    rw [deJukeboxPlaylist, asObject_obj, andThen_ok, reqField_some h1 h1x, andThen_ok,
      reqField_none h, andThen_error]
  · intro sd fs v1 i v2 b h1 h1x h2 h2x h
    rw [deJukeboxPlaylist, asObject_obj, andThen_ok, reqField_some h1 h1x, andThen_ok,
      reqField_some h2 h2x, andThen_ok, reqField_none h, andThen_error]
  · intro sd fs v1 i v2 b v3 g h1 h1x h2 h2x h3 h3x h
    rw [deJukeboxPlaylist, asObject_obj, andThen_ok, reqField_some h1 h1x, andThen_ok,
      reqField_some h2 h2x, andThen_ok, reqField_some h3 h3x, andThen_ok,
      reqField_none h, andThen_error]
  · intro sd fs v1 i v2 b v3 g v4 p h1 h1x h2 h2x h3 h3x h4 h4x h
    rw [deJukeboxPlaylist, asObject_obj, andThen_ok, reqField_some h1 h1x, andThen_ok,
      reqField_some h2 h2x, andThen_ok, reqField_some h3 h3x, andThen_ok,
      reqField_some h4 h4x, andThen_ok, reqField_none h, andThen_error]
  · intro fs h
    rw [fromJson_obj, fetchField_none h, andThen_error]
  · intro fs s n h1 h1x h
    rw [fromJson_obj, fetchField_some h1 (asStr_str s), andThen_ok,
      parsedU64_some "id" h1x, andThen_ok, fetchField_none h, andThen_error]
  · intro fs s n nm h1 h1x h2 h
    rw [fromJson_obj, fetchField_some h1 (asStr_str s), andThen_ok,
      parsedU64_some "id" h1x, andThen_ok, fetchField_some h2 (asStr_str nm), andThen_ok,
      fetchField_none h, andThen_error]
  · intro fs s n nm v4 sc h1 h1x h2 h3 h3x h
    rw [fromJson_obj, fetchField_some h1 (asStr_str s), andThen_ok,
      parsedU64_some "id" h1x, andThen_ok, fetchField_some h2 (asStr_str nm), andThen_ok,
      fetchField_some h3 h3x, andThen_ok, fetchField_none h, andThen_error]
  · intro fs s n nm v4 sc v5 du h1 h1x h2 h3 h3x h4 h4x h
    rw [fromJson_obj, fetchField_some h1 (asStr_str s), andThen_ok,
      parsedU64_some "id" h1x, andThen_ok, fetchField_some h2 (asStr_str nm), andThen_ok,
      fetchField_some h3 h3x, andThen_ok, fetchField_some h4 h4x, andThen_ok,
      fetchField_none h, andThen_error]

/-- Witness for claim C7: concrete objects, each missing exactly one
required field while the earlier fields are present and well shaped. -/
theorem c7_missing_field_errors_witness :
    deJukeboxStatus (Json.obj []) = Except.error (Err.missingField "currentIndex") ∧
    deJukeboxStatus (Json.obj [("currentIndex", Json.int 0)]) =
      Except.error (Err.missingField "playing") ∧
    deJukeboxStatus (Json.obj [("currentIndex", Json.int 0),
      ("playing", Json.bool false)]) = Except.error (Err.missingField "gain") ∧
    deJukeboxStatus (Json.obj [("currentIndex", Json.int 0),
      ("playing", Json.bool false), ("gain", Json.float (1 / 2))]) =
      Except.error (Err.missingField "position") ∧
    deJukeboxPlaylist constSongDe (Json.obj []) =
      Except.error (Err.missingField "currentIndex") ∧
    deJukeboxPlaylist constSongDe (Json.obj [("currentIndex", Json.int 0)]) =
      Except.error (Err.missingField "playing") ∧
    deJukeboxPlaylist constSongDe (Json.obj [("currentIndex", Json.int 0),
      ("playing", Json.bool false)]) = Except.error (Err.missingField "gain") ∧
    deJukeboxPlaylist constSongDe (Json.obj [("currentIndex", Json.int 0),
      ("playing", Json.bool false), ("gain", Json.float (1 / 2))]) =
      Except.error (Err.missingField "position") ∧
    deJukeboxPlaylist constSongDe (Json.obj [("currentIndex", Json.int 0),
      ("playing", Json.bool false), ("gain", Json.float (1 / 2)),
      ("position", Json.int 0)]) = Except.error (Err.missingField "entry") ∧
    Playlist.fromJson (Json.obj []) = Except.error (Err.missingField "id") ∧
    Playlist.fromJson (Json.obj [("id", Json.str "1")]) =
      Except.error (Err.missingField "name") ∧
    Playlist.fromJson (Json.obj [("id", Json.str "1"), ("name", Json.str "n")]) =
      Except.error (Err.missingField "songCount") ∧
    Playlist.fromJson (Json.obj [("id", Json.str "1"), ("name", Json.str "n"),
      ("songCount", Json.int 32)]) = Except.error (Err.missingField "duration") ∧
    Playlist.fromJson (Json.obj [("id", Json.str "1"), ("name", Json.str "n"),
      ("songCount", Json.int 32), ("duration", Json.int 8334)]) =
      Except.error (Err.missingField "coverArt") := by
  obtain ⟨s1, s2, s3, s4, p1, p2, p3, p4, p5, l1, l2, l3, l4, l5⟩ :=
    c7_missing_field_errors
  exact ⟨s1 [] rfl,
    s2 _ (Json.int 0) 0 rfl rfl rfl,
    s3 _ (Json.int 0) 0 (Json.bool false) false rfl rfl rfl rfl rfl,
    s4 _ (Json.int 0) 0 (Json.bool false) false (Json.float (1 / 2)) (1 / 2)
      rfl rfl rfl rfl rfl rfl rfl,
    p1 constSongDe [] rfl,
    p2 constSongDe _ (Json.int 0) 0 rfl rfl rfl,
    p3 constSongDe _ (Json.int 0) 0 (Json.bool false) false rfl rfl rfl rfl rfl,
    p4 constSongDe _ (Json.int 0) 0 (Json.bool false) false (Json.float (1 / 2)) (1 / 2)
      rfl rfl rfl rfl rfl rfl rfl,
    p5 constSongDe _ (Json.int 0) 0 (Json.bool false) false (Json.float (1 / 2)) (1 / 2)
      (Json.int 0) 0 rfl rfl rfl rfl rfl rfl rfl rfl rfl,
    l1 [] rfl,
    l2 _ "1" 1 rfl rfl rfl,
    l3 _ "1" 1 "n" rfl rfl rfl rfl,
    l4 _ "1" 1 "n" (Json.int 32) 32 rfl rfl rfl rfl rfl rfl,
    l5 _ "1" 1 "n" (Json.int 32) 32 (Json.int 8334) 8334
      rfl rfl rfl rfl rfl rfl rfl rfl⟩

/-- Claim C8: the free functions get_playlists and get_playlist are
unimplemented placeholders: for every input, invoking either one
panics rather than returning any value or typed error. -/
theorem c8_unimplemented_stubs :
    ∀ (sunk : Sunk) (user : Option String) (id : Nat),
      get_playlists sunk user = Panics.panics "not implemented" ∧
      get_playlist sunk id = Panics.panics "not implemented" ∧
      (∀ v : List Playlist, get_playlists sunk user ≠ Panics.returns v) ∧
      (∀ r : Except Err Playlist, get_playlist sunk id ≠ Panics.returns r) := by
  intro sunk user id
  exact ⟨rfl, rfl, fun v h => Panics.noConfusion h, fun r h => Panics.noConfusion h⟩

/-- Witness for claim C8 at concrete inputs. -/
theorem c8_unimplemented_stubs_witness :
    get_playlists Sunk.mk (some "user") = Panics.panics "not implemented" ∧
    get_playlist Sunk.mk 3 = Panics.panics "not implemented" ∧
    get_playlists Sunk.mk (some "user") ≠ Panics.returns [] ∧
    get_playlist Sunk.mk 3 ≠ Panics.returns (Except.error (Err.parseError "x")) :=
  ⟨(c8_unimplemented_stubs Sunk.mk (some "user") 3).1,
   (c8_unimplemented_stubs Sunk.mk (some "user") 3).2.1,
   (c8_unimplemented_stubs Sunk.mk (some "user") 3).2.2.1 [],
   (c8_unimplemented_stubs Sunk.mk (some "user") 3).2.2.2
     (Except.error (Err.parseError "x"))⟩

/-- Claim C9: for every song, remove issues exactly the same request as
remove_id on the id of the song: the id value is sent as the index
parameter of the remove action, so removing by Song removes by the
queue position equal to the id number of the song, not by song
identity. -/
theorem c9_remove_by_position (s : Song) :
    Jukebox.remove s = Jukebox.remove_id s.id ∧
    Jukebox.remove s =
      ("jukeboxControl", [("action", QVal.str "remove"), ("index", QVal.nat s.id)]) :=
  ⟨rfl, rfl⟩

/-- Claim C10: for every song and every song list, add issues the same
request as add_id on the id of the song, and add_all issues the same
request as add_all_ids on the list of the ids of the songs in the same
order. -/
theorem c10_add_by_id (s : Song) (ss : List Song) :
    Jukebox.add s = Jukebox.add_id s.id ∧
    Jukebox.add_all ss = Jukebox.add_all_ids (ss.map fun x => x.id) :=
  ⟨rfl, rfl⟩

/-- Witness for claim C2 at the concrete index five. -/
theorem c2_index_parameter_key_witness :
    Jukebox.remove_id 5 =
      ("jukeboxControl", [("action", QVal.str "remove"), ("index", QVal.nat 5)]) ∧
    Jukebox.skip_to 5 =
      ("jukeboxControl", [("action", QVal.str "skip"), ("index", QVal.nat 5)]) ∧
    ("id", QVal.nat 5) ∉ (Jukebox.remove_id 5).2 ∧
    ("id", QVal.nat 5) ∉ (Jukebox.skip_to 5).2 :=
  ⟨(c2_index_parameter_key 5).1, (c2_index_parameter_key 5).2.1,
   (c2_index_parameter_key 5).2.2.1 (QVal.nat 5),
   (c2_index_parameter_key 5).2.2.2 (QVal.nat 5)⟩
